import Mathlib

/-!
# Verification of `launch_background_agents.py`

A shallow embedding of the supervision/lifecycle core of the
`BackgroundAgentsLauncher` class: the health-monitor tick
(`monitor_system_health`), the per-agent recovery loop
(`run_agent_with_recovery`), system initialization (`initialize_system`),
coordinated agent startup (`start_agents`), the orchestrator `start`
sequence, and graceful `shutdown`.

External collaborators (PostgreSQL adapter, shared state, agent
coordinator, the agents themselves) are modelled by environments that say
whether each call succeeds and what data it returns; the control flow of
the launcher itself is translated statement by statement from the source.
-/

namespace LaunchBackgroundAgents

/-! ## Health monitor (`monitor_system_health`, one tick of the loop body)

Each tick fetches `{overall_health_score, active_agents, total_agents}`,
logs an INFO-level one-line summary, and — only when `health_score < 70` —
logs a warning line and emits a `system_health_check` system event.
Health scores are Python floats; we model them as rationals, which is
exact for the comparisons the code performs. -/

/-- A system event recorded through `shared_state.log_system_event`. -/
structure HealthEvent where
  eventType : String
  severity : String
  status : String
  healthScore : ℚ
  activeAgents : Nat
  totalAgents : Nat
  deriving DecidableEq, Repr

/-- Observable output of one health-monitor tick: the log level of the
per-tick summary line, whether the degraded warning line was logged, and
the system event emitted (if any). -/
structure TickOutput where
  summaryLevel : String
  warnLogged : Bool
  event : Option HealthEvent
  deriving DecidableEq, Repr

/-- One tick of `monitor_system_health` (lines 330-361 of the source):
the summary is logged at INFO level every tick; if `health_score < 70`
a warning is logged and a `system_health_check` event emitted, with
severity `'WARNING' if health_score < 70 else 'INFO'` and status
`'degraded' if health_score < 70 else 'healthy'` evaluated inside that
branch. -/
def monitorTick (healthScore : ℚ) (activeAgents totalAgents : Nat) : TickOutput :=
  { summaryLevel := "INFO"
    warnLogged := decide (healthScore < 70)
    event :=
      if healthScore < 70 then
        some { eventType := "system_health_check"
               severity := if healthScore < 70 then "WARNING" else "INFO"
               status := if healthScore < 70 then "degraded" else "healthy"
               healthScore := healthScore
               activeAgents := activeAgents
               totalAgents := totalAgents }
      else none }

/-! ## Recovery runner (`run_agent_with_recovery`)

The loop `while self.is_running and recovery_attempts <= max_attempts`
around `await agent.startup()`.  The agent's behaviour is an oracle
`outcome : Nat → RunOutcome` giving, for each loop iteration, whether
`agent.startup()` returns normally or raises.  `is_running` is shared
mutable state read twice per iteration: once at the loop condition
(`runningPre`) and once after the run returns or raises (`runningPost`).
The loop need not terminate (an agent that keeps returning normally while
the system runs loops forever), so we index by fuel; `terminated = false`
means fuel ran out, `terminated = true` means the Python loop really
exited. -/

/-- How one `agent.startup()` invocation ends: normal return or raise. -/
inductive RunOutcome
  | ok
  | err
  deriving DecidableEq, Repr

/-- Observable actions of the recovery loop, in order. -/
inductive RunnerEvent
  | runAttempt
  | unexpectedStop
  | shutdownStop
  | retryDelay
  | notifyCoordinator
  | exhausted
  deriving DecidableEq, Repr

/-- Result of running the recovery loop until it exits or fuel runs out. -/
structure RunnerResult where
  events : List RunnerEvent
  finalAttempts : Nat
  terminated : Bool
  deriving DecidableEq, Repr

/-- `run_agent_with_recovery` (lines 283-318), iteration `i`, current
`recovery_attempts` value `attempts`.  On a normal return the counter is
reset to 0 and the loop re-enters; on a raise the counter is incremented,
and the loop either delays, notifies the coordinator and retries (when
`recovery_attempts <= max_attempts and self.is_running`) or logs
exhaustion and breaks. -/
def runAgentWithRecovery (outcome : Nat → RunOutcome)
    (runningPre runningPost : Nat → Bool) (maxAttempts : Nat) :
    Nat → Nat → Nat → RunnerResult
  | 0, _, attempts => ⟨[], attempts, false⟩
  | fuel + 1, i, attempts =>
    if runningPre i = true ∧ attempts ≤ maxAttempts then
      match outcome i with
      | .ok =>
        let r := runAgentWithRecovery outcome runningPre runningPost maxAttempts
          fuel (i + 1) 0
        ⟨.runAttempt ::
            (if runningPost i then RunnerEvent.unexpectedStop else .shutdownStop) ::
            r.events,
          r.finalAttempts, r.terminated⟩
      | .err =>
        let a := attempts + 1
        if a ≤ maxAttempts ∧ runningPost i = true then
          let r := runAgentWithRecovery outcome runningPre runningPost maxAttempts
            fuel (i + 1) a
          ⟨.runAttempt :: .retryDelay :: .notifyCoordinator :: r.events,
            r.finalAttempts, r.terminated⟩
        else ⟨[.runAttempt, .exhausted], a, true⟩
    else ⟨[], attempts, true⟩

/-- The always-true `is_running` oracle (system stays in Running). -/
def alwaysRunning : Nat → Bool := fun _ => true

/-- An agent whose `startup()` raises on every invocation. -/
def alwaysErr : Nat → RunOutcome := fun _ => .err

/-! ## System initialization (`initialize_system`)

Four sequential sub-steps: PostgreSQL adapter init, health check
(`health_check['status'] != 'healthy'` raises a `RuntimeError`), shared
state init, system initializer, agent coordinator init.  Any raise is
logged and re-raised (`except ... raise`), so an error surfaces to the
caller unchanged. -/

/-- Which infrastructure call fails, and what the backend health check
returns. -/
structure InitEnv where
  adapterInitFails : Bool
  healthStatus : String
  sharedStateInitFails : Bool
  systemInitFails : Bool
  coordinatorInitFails : Bool
  deriving DecidableEq, Repr

/-- The error that `initialize_system` re-raises. -/
inductive InitError
  | adapterInit
  | healthCheckFailed (status : String)
  | sharedStateInit
  | systemInit
  | coordinatorInit
  deriving DecidableEq, Repr

/-- `initialize_system` (lines 141-191): each sub-step failure aborts the
sequence and propagates; the health check must report `'healthy'` or a
`RuntimeError` is raised. -/
def initializeSystem (env : InitEnv) : Except InitError Unit :=
  if env.adapterInitFails then .error .adapterInit
  else if env.healthStatus ≠ "healthy" then .error (.healthCheckFailed env.healthStatus)
  else if env.sharedStateInitFails then .error .sharedStateInit
  else if env.systemInitFails then .error .systemInit
  else if env.coordinatorInitFails then .error .coordinatorInit
  else .ok ()

/-! ## Coordinated agent startup (`start_agents`)

After registering the agents, `start_all_agents()` returns a per-agent
`agent_id → bool` mapping (modelled as an association list).  The code
partitions it into `successful_agents` and `failed_agents`, logs both,
and deliberately does not raise for failed entries ("Don't raise
exception for partial failures"). -/

/-- `start_agents` success/failure bookkeeping (lines 257-268): the
partition of the coordinator's `startup_results` into the
`successful_agents` and `failed_agents` lists. -/
def startAgents (startupResults : List (String × Bool)) :
    List String × List String :=
  ((startupResults.filter (fun p => p.2)).map (fun p => p.1),
   (startupResults.filter (fun p => !p.2)).map (fun p => p.1))

/-! ## Orchestrator `start`

`start` sequences `initialize_system` → `create_agents` → `start_agents`
→ `self.is_running = True` → startup event and metric →
`asyncio.create_task(self.monitor_system_health())` →
`await self.shutdown_event.wait()`.  We record every task spawned with
`asyncio.create_task` inside `start` by the name of the coroutine it
wraps.  Nothing in `start` (or anywhere else in the file) ever wraps
`run_agent_with_recovery` in a task. -/

/-- Environment for a `start` invocation: the infrastructure environment,
whether `create_agents` or the facade-level `start_all_agents` call
raises, and the per-agent results the coordinator returns. -/
structure StartEnv where
  init : InitEnv
  createAgentsFails : Bool
  startAllFacadeFails : Bool
  startupResults : List (String × Bool)
  deriving DecidableEq, Repr

/-- Observable outcome of `start` up to the point where it blocks on
`shutdown_event.wait()` (or raises). -/
structure StartResult where
  isRunning : Bool
  spawnedTasks : List String
  events : List String
  successfulAgents : List String
  failedAgents : List String
  error : Option String
  deriving DecidableEq, Repr

/-- `start` (lines 369-420).  Any exception in init, agent creation or
the facade-level start call propagates (`except ... raise`) with
`is_running` never set; otherwise `is_running` is set to `True`, the
`system_startup` event is logged, and exactly one task — the health
monitor — is spawned before blocking on the shutdown event. -/
def start (env : StartEnv) : StartResult :=
  match initializeSystem env.init with
  | .error _ => ⟨false, [], [], [], [], some "initialize_system"⟩
  | .ok _ =>
    if env.createAgentsFails then ⟨false, [], [], [], [], some "create_agents"⟩
    else if env.startAllFacadeFails then
      ⟨false, [], [], [], [], some "start_all_agents"⟩
    else
      let parts := startAgents env.startupResults
      { isRunning := true
        spawnedTasks := ["monitor_system_health"]
        events := ["system_startup"]
        successfulAgents := parts.1
        failedAgents := parts.2
        error := none }

/-- The four agents `create_agents` registers, in registration order. -/
def configuredAgents : List String :=
  ["heartbeat_health_agent", "performance_monitor", "langsmith_bridge",
   "ai_help_agent"]

/-! ## Graceful shutdown (`shutdown`)

`shutdown` returns immediately when `is_running` is already false (the
guard on line 425 — note there is no suspension point between the guard
and `self.is_running = False`, so under cooperative scheduling the guard
region is atomic).  Otherwise it clears `is_running`, logs the
`system_shutdown_start` event, fans out agent stops and waits for them
with `asyncio.wait_for(..., timeout=graceful_shutdown_timeout)` —
a `TimeoutError` is caught and only logged — cancels the still-pending
`agent_tasks`, stops the coordinator, logs `system_shutdown_complete`
and the reliability metric, closes shared state and the adapter, and
finally sets `shutdown_event`.  Any raise from a collaborator escapes the
outer `try` and is re-raised after logging. -/

/-- The launcher state that `shutdown` reads and writes. -/
structure LauncherState where
  isRunning : Bool
  hasSharedState : Bool
  hasCoordinator : Bool
  hasAdapter : Bool
  coordinatorStopped : Bool
  sharedStateClosed : Bool
  adapterClosed : Bool
  shutdownEventSet : Bool
  systemEvents : List String
  pendingTasks : Nat
  cancelledTasks : Nat
  deriving DecidableEq, Repr

/-- Behaviour of the collaborators during one `shutdown` call: how long
the concurrent agent-stop fan-out would need to finish, and which of the
awaited collaborator calls raises. -/
structure ShutdownEnv where
  stopDuration : Nat
  logStartFails : Bool
  coordinatorStopFails : Bool
  logCompleteFails : Bool
  logMetricFails : Bool
  sharedCloseFails : Bool
  adapterCloseFails : Bool
  deriving DecidableEq, Repr

/-- Outcome of one `shutdown` call: the final state, the exception it
re-raises (if any), how long it waited on the stop fan-out, and whether
the timeout warning was logged. -/
structure ShutdownResult where
  state : LauncherState
  error : Option String
  waitedSeconds : Nat
  timeoutWarning : Bool
  deriving DecidableEq, Repr

/-- Line 433: `self.is_running = False`, before any awaited cleanup. -/
def markNotRunning (s : LauncherState) : LauncherState :=
  { s with isRunning := false }

/-- Lines 436-441: log the `system_shutdown_start` event (guarded by
`if self.shared_state`). -/
def logShutdownStart (s : LauncherState) : LauncherState :=
  if s.hasSharedState then
    { s with systemEvents := s.systemEvents ++ ["system_shutdown_start"] }
  else s

/-- Lines 462-466: cancel every `agent_tasks` entry that is not done. -/
def cancelPendingTasks (s : LauncherState) : LauncherState :=
  { s with cancelledTasks := s.cancelledTasks + s.pendingTasks,
           pendingTasks := 0 }

/-- Lines 468-471: `await self.agent_coordinator.shutdown()` (guarded by
`if self.agent_coordinator`). -/
def stopCoordinator (s : LauncherState) : LauncherState :=
  if s.hasCoordinator then { s with coordinatorStopped := true } else s

/-- Lines 477-485: log the `system_shutdown_complete` event (guarded by
`if self.shared_state`). -/
def logShutdownComplete (s : LauncherState) : LauncherState :=
  if s.hasSharedState then
    { s with systemEvents := s.systemEvents ++ ["system_shutdown_complete"] }
  else s

/-- Line 495: `await self.shared_state.close()`. -/
def closeSharedState (s : LauncherState) : LauncherState :=
  if s.hasSharedState then { s with sharedStateClosed := true } else s

/-- Lines 497-500: `await self.postgresql_adapter.close()` (guarded by
`if self.postgresql_adapter`). -/
def closeAdapter (s : LauncherState) : LauncherState :=
  if s.hasAdapter then { s with adapterClosed := true } else s

/-- `shutdown` (lines 422-510), with `gracefulTimeout` the configured
`graceful_shutdown_timeout`.  Mirrors the source statement by statement;
each `if ... Fails` test is the modelled collaborator call raising at
that point, in program order.  The wait on the agent-stop fan-out lasts
`min stopDuration gracefulTimeout` seconds: `asyncio.wait_for` returns as
soon as the stops finish and raises `TimeoutError` — caught on line 459
and only logged — after `gracefulTimeout` seconds otherwise. -/
def shutdown (gracefulTimeout : Nat) (env : ShutdownEnv) (s : LauncherState) :
    ShutdownResult :=
  if !s.isRunning then ⟨s, none, 0, false⟩
  else
    let s0 := markNotRunning s
    if s0.hasSharedState && env.logStartFails then
      ⟨s0, some "log_system_event shutdown_start", 0, false⟩
    else
      let waited := min env.stopDuration gracefulTimeout
      let timedOut := decide (gracefulTimeout < env.stopDuration)
      let s1 := cancelPendingTasks (logShutdownStart s0)
      if s1.hasCoordinator && env.coordinatorStopFails then
        ⟨s1, some "agent_coordinator shutdown", waited, timedOut⟩
      else
        let s2 := stopCoordinator s1
        if s2.hasSharedState && env.logCompleteFails then
          ⟨s2, some "log_system_event shutdown_complete", waited, timedOut⟩
        else
          let s3 := logShutdownComplete s2
          if s3.hasSharedState && env.logMetricFails then
            ⟨s3, some "log_business_metric", waited, timedOut⟩
          else if s3.hasSharedState && env.sharedCloseFails then
            ⟨s3, some "shared_state close", waited, timedOut⟩
          else
            let s4 := closeSharedState s3
            if s4.hasAdapter && env.adapterCloseFails then
              ⟨s4, some "postgresql_adapter close", waited, timedOut⟩
            else
              let s5 := closeAdapter s4
              ⟨{ s5 with shutdownEventSet := true }, none, waited, timedOut⟩

/-- A shutdown environment in which every collaborator call succeeds and
the agents stop instantly. -/
def calmEnv : ShutdownEnv :=
  { stopDuration := 0
    logStartFails := false
    coordinatorStopFails := false
    logCompleteFails := false
    logMetricFails := false
    sharedCloseFails := false
    adapterCloseFails := false }

/-- A fully-initialized running launcher state with no events yet. -/
def runningState : LauncherState :=
  { isRunning := true
    hasSharedState := true
    hasCoordinator := true
    hasAdapter := true
    coordinatorStopped := false
    sharedStateClosed := false
    adapterClosed := false
    shutdownEventSet := false
    systemEvents := []
    pendingTasks := 0
    cancelledTasks := 0 }

/-- An agent that exits normally once and raises on every later
invocation. -/
def okThenErr : Nat → RunOutcome := fun n => if n = 0 then .ok else .err

/-- An infrastructure environment where every call succeeds and the
backend reports healthy. -/
def goodInit : InitEnv :=
  { adapterInitFails := false
    healthStatus := "healthy"
    sharedStateInitFails := false
    systemInitFails := false
    coordinatorInitFails := false }

/-- A fully successful `start` environment: healthy infrastructure and
all four configured agents starting successfully. -/
def goodStartEnv : StartEnv :=
  { init := goodInit
    createAgentsFails := false
    startAllFacadeFails := false
    startupResults := configuredAgents.map (fun a => (a, true)) }

/-- A `start` environment whose coordinator reports that every one of the
four configured agents failed to start. -/
def allFailStartEnv : StartEnv :=
  { goodStartEnv with
    startupResults := configuredAgents.map (fun a => (a, false)) }

/-- A `start` environment whose backend health check reports
`'unhealthy'`. -/
def unhealthyStartEnv : StartEnv :=
  { goodStartEnv with init := { goodInit with healthStatus := "unhealthy" } }

/-! ## Helper lemmas

Field-preservation facts for the shutdown step functions, so that proofs
about `shutdown` never have to expand nested record updates. -/

@[simp] theorem markNotRunning_isRunning (s : LauncherState) :
    (markNotRunning s).isRunning = false := rfl

@[simp] theorem markNotRunning_hasSharedState (s : LauncherState) :
    (markNotRunning s).hasSharedState = s.hasSharedState := rfl

@[simp] theorem markNotRunning_hasCoordinator (s : LauncherState) :
    (markNotRunning s).hasCoordinator = s.hasCoordinator := rfl

@[simp] theorem markNotRunning_hasAdapter (s : LauncherState) :
    (markNotRunning s).hasAdapter = s.hasAdapter := rfl

@[simp] theorem markNotRunning_shutdownEventSet (s : LauncherState) :
    (markNotRunning s).shutdownEventSet = s.shutdownEventSet := rfl

@[simp] theorem markNotRunning_systemEvents (s : LauncherState) :
    (markNotRunning s).systemEvents = s.systemEvents := rfl

@[simp] theorem markNotRunning_pendingTasks (s : LauncherState) :
    (markNotRunning s).pendingTasks = s.pendingTasks := rfl

@[simp] theorem markNotRunning_cancelledTasks (s : LauncherState) :
    (markNotRunning s).cancelledTasks = s.cancelledTasks := rfl

@[simp] theorem logShutdownStart_isRunning (s : LauncherState) :
    (logShutdownStart s).isRunning = s.isRunning := by
  unfold logShutdownStart; split <;> rfl

@[simp] theorem logShutdownStart_hasSharedState (s : LauncherState) :
    (logShutdownStart s).hasSharedState = s.hasSharedState := by
  unfold logShutdownStart; split <;> rfl

@[simp] theorem logShutdownStart_hasCoordinator (s : LauncherState) :
    (logShutdownStart s).hasCoordinator = s.hasCoordinator := by
  unfold logShutdownStart; split <;> rfl

@[simp] theorem logShutdownStart_hasAdapter (s : LauncherState) :
    (logShutdownStart s).hasAdapter = s.hasAdapter := by
  unfold logShutdownStart; split <;> rfl

@[simp] theorem logShutdownStart_shutdownEventSet (s : LauncherState) :
    (logShutdownStart s).shutdownEventSet = s.shutdownEventSet := by
  unfold logShutdownStart; split <;> rfl

@[simp] theorem logShutdownStart_pendingTasks (s : LauncherState) :
    (logShutdownStart s).pendingTasks = s.pendingTasks := by
  unfold logShutdownStart; split <;> rfl

@[simp] theorem logShutdownStart_cancelledTasks (s : LauncherState) :
    (logShutdownStart s).cancelledTasks = s.cancelledTasks := by
  unfold logShutdownStart; split <;> rfl

@[simp] theorem logShutdownStart_systemEvents (s : LauncherState) :
    (logShutdownStart s).systemEvents =
      if s.hasSharedState then s.systemEvents ++ ["system_shutdown_start"]
      else s.systemEvents := by
  unfold logShutdownStart; split <;> simp [*]

@[simp] theorem cancelPendingTasks_isRunning (s : LauncherState) :
    (cancelPendingTasks s).isRunning = s.isRunning := rfl

@[simp] theorem cancelPendingTasks_hasSharedState (s : LauncherState) :
    (cancelPendingTasks s).hasSharedState = s.hasSharedState := rfl

@[simp] theorem cancelPendingTasks_hasCoordinator (s : LauncherState) :
    (cancelPendingTasks s).hasCoordinator = s.hasCoordinator := rfl

@[simp] theorem cancelPendingTasks_hasAdapter (s : LauncherState) :
    (cancelPendingTasks s).hasAdapter = s.hasAdapter := rfl

@[simp] theorem cancelPendingTasks_shutdownEventSet (s : LauncherState) :
    (cancelPendingTasks s).shutdownEventSet = s.shutdownEventSet := rfl

@[simp] theorem cancelPendingTasks_systemEvents (s : LauncherState) :
    (cancelPendingTasks s).systemEvents = s.systemEvents := rfl

@[simp] theorem cancelPendingTasks_cancelledTasks (s : LauncherState) :
    (cancelPendingTasks s).cancelledTasks =
      s.cancelledTasks + s.pendingTasks := rfl

@[simp] theorem cancelPendingTasks_pendingTasks (s : LauncherState) :
    (cancelPendingTasks s).pendingTasks = 0 := rfl

@[simp] theorem stopCoordinator_isRunning (s : LauncherState) :
    (stopCoordinator s).isRunning = s.isRunning := by
  unfold stopCoordinator; split <;> rfl

@[simp] theorem stopCoordinator_hasSharedState (s : LauncherState) :
    (stopCoordinator s).hasSharedState = s.hasSharedState := by
  unfold stopCoordinator; split <;> rfl

@[simp] theorem stopCoordinator_hasAdapter (s : LauncherState) :
    (stopCoordinator s).hasAdapter = s.hasAdapter := by
  unfold stopCoordinator; split <;> rfl

@[simp] theorem stopCoordinator_shutdownEventSet (s : LauncherState) :
    (stopCoordinator s).shutdownEventSet = s.shutdownEventSet := by
  unfold stopCoordinator; split <;> rfl

@[simp] theorem stopCoordinator_systemEvents (s : LauncherState) :
    (stopCoordinator s).systemEvents = s.systemEvents := by
  unfold stopCoordinator; split <;> rfl

@[simp] theorem stopCoordinator_cancelledTasks (s : LauncherState) :
    (stopCoordinator s).cancelledTasks = s.cancelledTasks := by
  unfold stopCoordinator; split <;> rfl

@[simp] theorem stopCoordinator_coordinatorStopped (s : LauncherState) :
    (stopCoordinator s).coordinatorStopped =
      if s.hasCoordinator then true else s.coordinatorStopped := by
  unfold stopCoordinator; split <;> simp [*]

@[simp] theorem logShutdownComplete_isRunning (s : LauncherState) :
    (logShutdownComplete s).isRunning = s.isRunning := by
  unfold logShutdownComplete; split <;> rfl

@[simp] theorem logShutdownComplete_hasSharedState (s : LauncherState) :
    (logShutdownComplete s).hasSharedState = s.hasSharedState := by
  unfold logShutdownComplete; split <;> rfl

@[simp] theorem logShutdownComplete_hasAdapter (s : LauncherState) :
    (logShutdownComplete s).hasAdapter = s.hasAdapter := by
  unfold logShutdownComplete; split <;> rfl

@[simp] theorem logShutdownComplete_shutdownEventSet (s : LauncherState) :
    (logShutdownComplete s).shutdownEventSet = s.shutdownEventSet := by
  unfold logShutdownComplete; split <;> rfl

@[simp] theorem logShutdownComplete_coordinatorStopped (s : LauncherState) :
    (logShutdownComplete s).coordinatorStopped = s.coordinatorStopped := by
  unfold logShutdownComplete; split <;> rfl

@[simp] theorem logShutdownComplete_cancelledTasks (s : LauncherState) :
    (logShutdownComplete s).cancelledTasks = s.cancelledTasks := by
  unfold logShutdownComplete; split <;> rfl

@[simp] theorem logShutdownComplete_systemEvents (s : LauncherState) :
    (logShutdownComplete s).systemEvents =
      if s.hasSharedState then s.systemEvents ++ ["system_shutdown_complete"]
      else s.systemEvents := by
  unfold logShutdownComplete; split <;> simp [*]

@[simp] theorem closeSharedState_isRunning (s : LauncherState) :
    (closeSharedState s).isRunning = s.isRunning := by
  unfold closeSharedState; split <;> rfl

@[simp] theorem closeSharedState_hasSharedState (s : LauncherState) :
    (closeSharedState s).hasSharedState = s.hasSharedState := by
  unfold closeSharedState; split <;> rfl

@[simp] theorem closeSharedState_hasAdapter (s : LauncherState) :
    (closeSharedState s).hasAdapter = s.hasAdapter := by
  unfold closeSharedState; split <;> rfl

@[simp] theorem closeSharedState_shutdownEventSet (s : LauncherState) :
    (closeSharedState s).shutdownEventSet = s.shutdownEventSet := by
  unfold closeSharedState; split <;> rfl

@[simp] theorem closeSharedState_systemEvents (s : LauncherState) :
    (closeSharedState s).systemEvents = s.systemEvents := by
  unfold closeSharedState; split <;> rfl

@[simp] theorem closeSharedState_coordinatorStopped (s : LauncherState) :
    (closeSharedState s).coordinatorStopped = s.coordinatorStopped := by
  unfold closeSharedState; split <;> rfl

@[simp] theorem closeSharedState_cancelledTasks (s : LauncherState) :
    (closeSharedState s).cancelledTasks = s.cancelledTasks := by
  unfold closeSharedState; split <;> rfl

@[simp] theorem closeSharedState_sharedStateClosed (s : LauncherState) :
    (closeSharedState s).sharedStateClosed =
      if s.hasSharedState then true else s.sharedStateClosed := by
  unfold closeSharedState; split <;> simp [*]

@[simp] theorem closeAdapter_isRunning (s : LauncherState) :
    (closeAdapter s).isRunning = s.isRunning := by
  unfold closeAdapter; split <;> rfl

@[simp] theorem closeAdapter_shutdownEventSet (s : LauncherState) :
    (closeAdapter s).shutdownEventSet = s.shutdownEventSet := by
  unfold closeAdapter; split <;> rfl

@[simp] theorem closeAdapter_systemEvents (s : LauncherState) :
    (closeAdapter s).systemEvents = s.systemEvents := by
  unfold closeAdapter; split <;> rfl

@[simp] theorem closeAdapter_coordinatorStopped (s : LauncherState) :
    (closeAdapter s).coordinatorStopped = s.coordinatorStopped := by
  unfold closeAdapter; split <;> rfl

@[simp] theorem closeAdapter_sharedStateClosed (s : LauncherState) :
    (closeAdapter s).sharedStateClosed = s.sharedStateClosed := by
  unfold closeAdapter; split <;> rfl

@[simp] theorem closeAdapter_cancelledTasks (s : LauncherState) :
    (closeAdapter s).cancelledTasks = s.cancelledTasks := by
  unfold closeAdapter; split <;> rfl

@[simp] theorem closeAdapter_adapterClosed (s : LauncherState) :
    (closeAdapter s).adapterClosed =
      if s.hasAdapter then true else s.adapterClosed := by
  unfold closeAdapter; split <;> simp [*]

/-- Every exit path of `shutdown` leaves `is_running` false: the guard
branch requires it false already, and every other branch starts from the
state with `is_running := False` and never sets it back. -/
theorem shutdown_state_not_running (T : Nat) (env : ShutdownEnv)
    (s : LauncherState) : (shutdown T env s).state.isRunning = false := by
  by_cases h : s.isRunning
  · simp only [shutdown, h, Bool.not_true, Bool.false_eq_true, if_false]
    split_ifs <;> simp
  · simp only [Bool.not_eq_true] at h
    simp [shutdown, h]

/-- A `shutdown` call on any state produced by a previous `shutdown` call
is a no-op: it hits the `if not self.is_running: return` guard. -/
theorem shutdown_second_call_noop (T2 : Nat) (env2 : ShutdownEnv)
    (T : Nat) (env : ShutdownEnv) (s : LauncherState) :
    shutdown T2 env2 (shutdown T env s).state =
      ⟨(shutdown T env s).state, none, 0, false⟩ := by
  have h := shutdown_state_not_running T env s
  revert h
  generalize (shutdown T env s).state = st
  intro h
  simp [shutdown, h]

/-! ## Claim theorems -/

/-- C2: on a health-monitor tick, a degraded-severity
`system_health_check` event is emitted through `log_system_event` if and
only if the fetched overall health score is strictly below 70; any
emitted event carries severity WARNING and status degraded; at the
boundary score 70 no event is emitted and the tick's only output is the
INFO-level summary line (70 is treated as healthy). -/
theorem monitor_degraded_event_iff_below_70 (score : ℚ) (a t : Nat) :
    ((monitorTick score a t).event.isSome = true ↔ score < 70)
    ∧ (score < 70 → (monitorTick score a t).event =
        some ⟨"system_health_check", "WARNING", "degraded", score, a, t⟩)
    ∧ (monitorTick (70 : ℚ) a t).event = none
    ∧ (monitorTick (70 : ℚ) a t).summaryLevel = "INFO" := by
  refine ⟨?_, ?_, ?_, rfl⟩
  · by_cases h : score < 70 <;> simp [monitorTick, h]
  · intro h
    simp [monitorTick, h]
  · simp [monitorTick]

/-- Witness for C2 at the spec's scenario score 55 (degraded WARNING
event) and at the boundary score 70 (no event). -/
theorem monitor_degraded_event_iff_below_70_witness :
    (monitorTick (55 : ℚ) 3 4).event =
      some ⟨"system_health_check", "WARNING", "degraded", 55, 3, 4⟩
    ∧ (monitorTick (70 : ℚ) 3 4).event = none :=
  ⟨(monitor_degraded_event_iff_below_70 55 3 4).2.1 (by norm_num),
   (monitor_degraded_event_iff_below_70 55 3 4).2.2.1⟩

/-- C9: `shutdown` invoked while `is_running` is false returns at the
guard without doing anything: the state is unchanged (no events emitted,
nothing closed or stopped, the completion signal not set). -/
theorem shutdown_noop_when_never_running (T : Nat) (env : ShutdownEnv)
    (s : LauncherState) (h : s.isRunning = false) :
    shutdown T env s = ⟨s, none, 0, false⟩ := by
  simp [shutdown, h]

/-- Witness for C9: a freshly-failed launcher (never marked running). -/
theorem shutdown_noop_when_never_running_witness :
    shutdown 30 calmEnv { runningState with isRunning := false } =
      ⟨{ runningState with isRunning := false }, none, 0, false⟩ :=
  shutdown_noop_when_never_running 30 calmEnv
    { runningState with isRunning := false } rfl

/-- With an always-failing agent and the system running throughout, the
recovery loop entered with counter value `a ≤ maxAttempts` makes exactly
`maxAttempts + 1 - a` further run attempts, really exits, logs
exhaustion, and ends with the counter at `maxAttempts + 1`. -/
theorem runner_allfail_run_count (maxAttempts : Nat) :
    ∀ fuel i a, a ≤ maxAttempts → maxAttempts + 1 ≤ fuel + a →
    ((runAgentWithRecovery alwaysErr alwaysRunning alwaysRunning maxAttempts
        fuel i a).events.count .runAttempt = maxAttempts + 1 - a)
    ∧ (runAgentWithRecovery alwaysErr alwaysRunning alwaysRunning maxAttempts
        fuel i a).terminated = true
    ∧ RunnerEvent.exhausted ∈ (runAgentWithRecovery alwaysErr alwaysRunning
        alwaysRunning maxAttempts fuel i a).events
    ∧ (runAgentWithRecovery alwaysErr alwaysRunning alwaysRunning maxAttempts
        fuel i a).finalAttempts = maxAttempts + 1 := by
  intro fuel
  induction fuel with
  | zero => intro i a _ _; omega
  | succ n ih =>
    intro i a ha hf
    by_cases h : a + 1 ≤ maxAttempts
    · obtain ⟨h1, h2, h3, h4⟩ := ih (i + 1) (a + 1) h (by omega)
      simp only [runAgentWithRecovery, alwaysErr, alwaysRunning, ha, h,
        and_true, true_and, if_true, if_pos]
      refine ⟨?_, h2, ?_, h4⟩
      · rw [List.count_cons_self, List.count_cons_of_ne (by simp),
          List.count_cons_of_ne (by simp), h1]
        omega
      · simp [h3]
    · have haM : a = maxAttempts := by omega
      simp only [runAgentWithRecovery, alwaysErr, alwaysRunning, ha,
        and_true, true_and, if_true, if_pos, h, false_and, if_false]
      refine ⟨?_, by simp, by omega⟩
      rw [List.count_cons_self, List.count_cons_of_ne (by simp),
        List.count_nil]
      omega

/-- C3: a worker whose run operation raises on every invocation, with
`max_attempts = 3` and `is_running` true throughout, has its
`agent.startup()` invoked exactly 4 times (1 initial attempt plus 3
retries); the loop then really exits (no further restarts, for any
remaining fuel) after logging exhaustion of the retry budget. -/
theorem recovery_exhausts_after_four_attempts (fuel : Nat) (h : 4 ≤ fuel) :
    ((runAgentWithRecovery alwaysErr alwaysRunning alwaysRunning 3 fuel 0
        0).events.count .runAttempt = 4)
    ∧ (runAgentWithRecovery alwaysErr alwaysRunning alwaysRunning 3 fuel 0
        0).terminated = true
    ∧ RunnerEvent.exhausted ∈ (runAgentWithRecovery alwaysErr alwaysRunning
        alwaysRunning 3 fuel 0 0).events := by
  obtain ⟨h1, h2, h3, _⟩ := runner_allfail_run_count 3 fuel 0 0 (by omega)
    (by omega)
  exact ⟨h1, h2, h3⟩

/-- Witness for C3 at fuel 10: the extra fuel changes nothing, the loop
has already exited. -/
theorem recovery_exhausts_after_four_attempts_witness :
    ((runAgentWithRecovery alwaysErr alwaysRunning alwaysRunning 3 10 0
        0).events.count .runAttempt = 4)
    ∧ (runAgentWithRecovery alwaysErr alwaysRunning alwaysRunning 3 10 0
        0).terminated = true
    ∧ RunnerEvent.exhausted ∈ (runAgentWithRecovery alwaysErr alwaysRunning
        alwaysRunning 3 10 0 0).events :=
  recovery_exhausts_after_four_attempts 10 (by norm_num)

/-- While `is_running` stays true on every read, the recovery loop can
only really exit with its counter strictly above `max_attempts`. -/
theorem runner_exit_exceeds_max_of_running (outcome : Nat → RunOutcome)
    (pre post : Nat → Bool) (M : Nat) (hpre : ∀ n, pre n = true)
    (hpost : ∀ n, post n = true) :
    ∀ fuel i a,
    (runAgentWithRecovery outcome pre post M fuel i a).terminated = true →
    M < (runAgentWithRecovery outcome pre post M fuel i a).finalAttempts := by
  intro fuel
  induction fuel with
  | zero => intro i a hterm; simp [runAgentWithRecovery] at hterm
  | succ n ih =>
    intro i a hterm
    by_cases hc : a ≤ M
    · cases ho : outcome i with
      | ok =>
        simp only [runAgentWithRecovery, hpre i, hc, and_true, true_and,
          if_true, ho] at hterm ⊢
        exact ih (i + 1) 0 hterm
      | err =>
        by_cases h2 : a + 1 ≤ M
        · simp only [runAgentWithRecovery, hpre i, hc, and_true, true_and,
            if_true, ho, h2, hpost i] at hterm ⊢
          exact ih (i + 1) (a + 1) hterm
        · simp only [runAgentWithRecovery, hpre i, hc, and_true, true_and,
            if_true, ho, h2, false_and, if_false]
          omega
    · simp only [runAgentWithRecovery, hpre i, hc, and_false, true_and,
        if_false]
      omega

/-- C7: in the recovery loop, a run that returns without raising resets
the retry counter to 0 before the loop condition is re-evaluated,
regardless of the counter's current value; and the loop really exits
only once the counter exceeds `max_attempts` or some read of
`is_running` returned false. -/
theorem recovery_counter_reset_and_termination (outcome : Nat → RunOutcome)
    (pre post : Nat → Bool) (M fuel i a : Nat) :
    (outcome i = .ok → a ≤ M →
      runAgentWithRecovery outcome alwaysRunning alwaysRunning M (fuel + 1)
          i a =
        ⟨.runAttempt :: .unexpectedStop ::
            (runAgentWithRecovery outcome alwaysRunning alwaysRunning M fuel
              (i + 1) 0).events,
          (runAgentWithRecovery outcome alwaysRunning alwaysRunning M fuel
            (i + 1) 0).finalAttempts,
          (runAgentWithRecovery outcome alwaysRunning alwaysRunning M fuel
            (i + 1) 0).terminated⟩)
    ∧ ((runAgentWithRecovery outcome pre post M fuel i a).terminated =
          true →
        M < (runAgentWithRecovery outcome pre post M fuel i a).finalAttempts
        ∨ ∃ n, pre n = false ∨ post n = false) := by
  constructor
  · intro ho ha
    simp [runAgentWithRecovery, alwaysRunning, ha, ho]
  · intro hterm
    by_cases hall : (∀ n, pre n = true) ∧ ∀ n, post n = true
    · exact Or.inl (runner_exit_exceeds_max_of_running outcome pre post M
        hall.1 hall.2 fuel i a hterm)
    · refine Or.inr ?_
      rw [not_and_or] at hall
      rcases hall with h | h
      · push_neg at h
        obtain ⟨n, hn⟩ := h
        exact ⟨n, Or.inl (by simpa using hn)⟩
      · push_neg at h
        obtain ⟨n, hn⟩ := h
        exact ⟨n, Or.inr (by simpa using hn)⟩

/-- Witness for C7 with `max_attempts = 0` and a worker that exits
normally once (after which the counter is reset) and then raises. -/
theorem recovery_counter_reset_and_termination_witness :
    runAgentWithRecovery okThenErr alwaysRunning alwaysRunning 0 3 0 0 =
      ⟨.runAttempt :: .unexpectedStop ::
          (runAgentWithRecovery okThenErr alwaysRunning alwaysRunning 0 2 1
            0).events,
        (runAgentWithRecovery okThenErr alwaysRunning alwaysRunning 0 2 1
          0).finalAttempts,
        (runAgentWithRecovery okThenErr alwaysRunning alwaysRunning 0 2 1
          0).terminated⟩
    ∧ (0 < (runAgentWithRecovery okThenErr alwaysRunning alwaysRunning 0 2 0
          0).finalAttempts
        ∨ ∃ n, alwaysRunning n = false ∨ alwaysRunning n = false) :=
  ⟨(recovery_counter_reset_and_termination okThenErr alwaysRunning
      alwaysRunning 0 2 0 0).1 rfl (by omega),
   (recovery_counter_reset_and_termination okThenErr alwaysRunning
      alwaysRunning 0 2 0 0).2 rfl⟩

/-- C4: `shutdown` is idempotent.  A second invocation on the state left
by any first invocation is a no-op (the guard `if not self.is_running:
return` fires, because the first call cleared the flag in the same
suspension-free segment as the guard).  From a running state, two
invocations append exactly one `system_shutdown_complete` event and set
the completion signal exactly once. -/
theorem shutdown_idempotent (T T2 : Nat) (env env2 : ShutdownEnv)
    (s : LauncherState) (hrun : s.isRunning = true)
    (hss : s.hasSharedState = true) :
    (shutdown T2 env2 (shutdown T env s).state =
        ⟨(shutdown T env s).state, none, 0, false⟩)
    ∧ ((shutdown T calmEnv s).state.systemEvents.count
          "system_shutdown_complete"
        = s.systemEvents.count "system_shutdown_complete" + 1)
    ∧ (shutdown T calmEnv s).state.shutdownEventSet = true := by
  have h1 : List.count "system_shutdown_complete" ["system_shutdown_start"]
      = 0 := by decide
  have h2 : List.count "system_shutdown_complete"
      ["system_shutdown_complete"] = 1 := by decide
  refine ⟨shutdown_second_call_noop T2 env2 T env s, ?_, ?_⟩
  · simp [shutdown, calmEnv, hrun, hss, List.count_append, h1, h2]
  · simp [shutdown, calmEnv, hrun]

/-- Witness for C4: two consecutive shutdowns of a running launcher. -/
theorem shutdown_idempotent_witness :
    (shutdown 10 calmEnv (shutdown 30 calmEnv runningState).state =
        ⟨(shutdown 30 calmEnv runningState).state, none, 0, false⟩)
    ∧ ((shutdown 30 calmEnv runningState).state.systemEvents.count
          "system_shutdown_complete"
        = runningState.systemEvents.count "system_shutdown_complete" + 1)
    ∧ (shutdown 30 calmEnv runningState).state.shutdownEventSet = true :=
  shutdown_idempotent 30 10 calmEnv calmEnv runningState rfl rfl

/-- C6: `shutdown` waits at most `graceful_shutdown_timeout` on the
agent-stop fan-out, for every collaborator behaviour; when the stops
overrun the timeout the `TimeoutError` is caught (the warning is logged,
nothing is re-raised) and shutdown proceeds to forced cleanup: pending
task cancellation, coordinator stop, shared-state close and the
completion signal. -/
theorem shutdown_bounded_by_graceful_timeout (T d : Nat)
    (s : LauncherState) (hrun : s.isRunning = true)
    (hss : s.hasSharedState = true) (hco : s.hasCoordinator = true) :
    (∀ env : ShutdownEnv, (shutdown T env s).waitedSeconds ≤ T)
    ∧ (shutdown T { calmEnv with stopDuration := d } s).error = none
    ∧ (T < d →
        (shutdown T { calmEnv with stopDuration := d } s).timeoutWarning =
          true)
    ∧ (shutdown T { calmEnv with stopDuration := d } s).state.cancelledTasks
        = s.cancelledTasks + s.pendingTasks
    ∧ (shutdown T { calmEnv with stopDuration :=
        d } s).state.coordinatorStopped = true
    ∧ (shutdown T { calmEnv with stopDuration :=
        d } s).state.sharedStateClosed = true
    ∧ (shutdown T { calmEnv with stopDuration :=
        d } s).state.shutdownEventSet = true := by
  refine ⟨?_, ?_, ?_, ?_, ?_, ?_, ?_⟩
  · intro env
    simp only [shutdown]
    split_ifs <;> simp [inf_le_right]
  · simp [shutdown, calmEnv, hrun]
  · intro hlt
    simp [shutdown, calmEnv, hrun, hlt]
  · simp [shutdown, calmEnv, hrun]
  · simp [shutdown, calmEnv, hrun, hco]
  · simp [shutdown, calmEnv, hrun, hss]
  · simp [shutdown, calmEnv, hrun]

/-- Witness for C6: timeout 30, agents needing 100 seconds to stop, two
pending supervision tasks. -/
theorem shutdown_bounded_by_graceful_timeout_witness :
    (shutdown 30 { calmEnv with stopDuration := 100 }
        { runningState with pendingTasks := 2 }).waitedSeconds ≤ 30
    ∧ (shutdown 30 { calmEnv with stopDuration := 100 }
        { runningState with pendingTasks := 2 }).error = none
    ∧ (shutdown 30 { calmEnv with stopDuration := 100 }
        { runningState with pendingTasks := 2 }).timeoutWarning = true
    ∧ (shutdown 30 { calmEnv with stopDuration := 100 }
        { runningState with pendingTasks :=
          2 }).state.cancelledTasks = 2
    ∧ (shutdown 30 { calmEnv with stopDuration := 100 }
        { runningState with pendingTasks :=
          2 }).state.shutdownEventSet = true := by
  have h := shutdown_bounded_by_graceful_timeout 30 100
    { runningState with pendingTasks := 2 } rfl rfl rfl
  exact ⟨h.1 { calmEnv with stopDuration := 100 }, h.2.1,
    h.2.2.1 (by norm_num), h.2.2.2.1, h.2.2.2.2.2.2⟩

/-- If a `shutdown` call re-raises an exception, the completion signal is
exactly as it was before the call: `shutdown_event.set()` is the last
statement of the happy path and is never reached on an error. -/
theorem shutdown_error_keeps_eventSet (T : Nat) (env : ShutdownEnv)
    (s : LauncherState) :
    (shutdown T env s).error.isSome = true →
    (shutdown T env s).state.shutdownEventSet = s.shutdownEventSet := by
  simp only [shutdown]
  split_ifs <;> simp

/-- C10: `shutdown` is not atomic on error.  It clears `is_running`
first, so when any later cleanup step raises, the exception propagates
with the completion signal still unset — and since every subsequent
`shutdown` call is a guard-hit no-op, the signal can then never fire for
the life of the process. -/
theorem shutdown_failure_leaves_signal_forever_unset (T : Nat)
    (env : ShutdownEnv) (s : LauncherState)
    (hset : s.shutdownEventSet = false)
    (herr : (shutdown T env s).error.isSome = true) :
    (shutdown T env s).state.isRunning = false
    ∧ (shutdown T env s).state.shutdownEventSet = false
    ∧ ∀ T2 env2, shutdown T2 env2 (shutdown T env s).state =
        ⟨(shutdown T env s).state, none, 0, false⟩ :=
  ⟨shutdown_state_not_running T env s,
   by rw [shutdown_error_keeps_eventSet T env s herr, hset],
   fun T2 env2 => shutdown_second_call_noop T2 env2 T env s⟩

/-- Witness for C10: the `system_shutdown_start` logging call raises. -/
theorem shutdown_failure_leaves_signal_forever_unset_witness :
    (shutdown 30 { calmEnv with logStartFails := true }
        runningState).state.isRunning = false
    ∧ (shutdown 30 { calmEnv with logStartFails := true }
        runningState).state.shutdownEventSet = false
    ∧ shutdown 25 calmEnv (shutdown 30 { calmEnv with logStartFails :=
        true } runningState).state =
      ⟨(shutdown 30 { calmEnv with logStartFails := true }
          runningState).state, none, 0, false⟩ := by
  have h := shutdown_failure_leaves_signal_forever_unset 30
    { calmEnv with logStartFails := true } runningState rfl rfl
  exact ⟨h.1, h.2.1, h.2.2 25 calmEnv⟩

/-- The `successful_agents` / `failed_agents` partition covers every
entry of the coordinator's `startup_results` exactly once. -/
theorem filter_partition_length (l : List (String × Bool)) :
    (l.filter (fun p => p.2)).length + (l.filter (fun p => !p.2)).length
      = l.length := by
  induction l with
  | nil => rfl
  | cons p l ih =>
    cases hp : p.2 <;> simp [List.filter_cons, hp] <;> omega

/-- C5: per-worker start failures reported by `start_all_agents` do not
abort startup: `start` raises nothing for failed workers (even when the
results are all failures), records every worker in exactly one of the
succeeded/failed lists, and still sets `is_running` — only
initialization, agent creation, or a facade-level fault can stop it. -/
theorem partial_start_failures_do_not_abort (env : StartEnv)
    (hinit : initializeSystem env.init = .ok ())
    (hcreate : env.createAgentsFails = false)
    (hfacade : env.startAllFacadeFails = false) :
    (start env).error = none
    ∧ (start env).isRunning = true
    ∧ (start env).successfulAgents.length + (start env).failedAgents.length
        = env.startupResults.length := by
  refine ⟨?_, ?_, ?_⟩ <;>
    simp [start, hinit, hcreate, hfacade, startAgents,
      filter_partition_length]

/-- Witness for C5: all four configured agents fail to start, yet the
system reaches Running with no error and all four recorded as failed. -/
theorem partial_start_failures_do_not_abort_witness :
    (start allFailStartEnv).error = none
    ∧ (start allFailStartEnv).isRunning = true
    ∧ (start allFailStartEnv).successfulAgents.length
        + (start allFailStartEnv).failedAgents.length
        = allFailStartEnv.startupResults.length :=
  partial_start_failures_do_not_abort allFailStartEnv rfl rfl rfl

/-- C8: `initialize_system` succeeds only when the backend health check
reports `'healthy'`; any other status raises, and under `start` that
error aborts the whole startup sequence and propagates, so `is_running`
is never set with an unhealthy backend. -/
theorem unhealthy_backend_aborts_startup (ienv : InitEnv)
    (senv : StartEnv) :
    (initializeSystem ienv = .ok () → ienv.healthStatus = "healthy")
    ∧ (ienv.adapterInitFails = false → ienv.healthStatus ≠ "healthy" →
        initializeSystem ienv = .error (.healthCheckFailed ienv.healthStatus))
    ∧ (senv.init.healthStatus ≠ "healthy" →
        (start senv).isRunning = false
          ∧ (start senv).error.isSome = true) := by
  have hgen : ∀ e : InitEnv, initializeSystem e = .ok () →
      e.healthStatus = "healthy" := by
    intro e he
    by_contra hne
    cases ha : e.adapterInitFails <;> simp [initializeSystem, ha, hne] at he
  refine ⟨hgen ienv, ?_, ?_⟩
  · intro h1 h2
    simp [initializeSystem, h1, h2]
  · intro hne
    cases hres : initializeSystem senv.init with
    | error e => simp [start, hres]
    | ok u =>
      exact absurd (hgen senv.init hres) hne

/-- Witness for C8: the backend reports `'unhealthy'`. -/
theorem unhealthy_backend_aborts_startup_witness :
    initializeSystem unhealthyStartEnv.init =
      .error (.healthCheckFailed "unhealthy")
    ∧ (start unhealthyStartEnv).isRunning = false
    ∧ (start unhealthyStartEnv).error.isSome = true := by
  have h := unhealthy_backend_aborts_startup unhealthyStartEnv.init
    unhealthyStartEnv
  exact ⟨h.2.1 rfl (by decide), (h.2.2 (by decide)).1, (h.2.2 (by decide)).2⟩

/-- C1 (divergence): after a successful `start` reaches Running, the only
task it spawns is the health monitor: `asyncio.create_task` is called
exactly once, on `monitor_system_health()`, and `run_agent_with_recovery`
is never scheduled for any agent, so zero Recovery Runner tasks exist
while the orchestrator blocks on the shutdown signal. -/
theorem start_spawns_only_health_monitor (env : StartEnv)
    (h : (start env).error = none) :
    (start env).spawnedTasks = ["monitor_system_health"]
    ∧ (start env).spawnedTasks.count "run_agent_with_recovery" = 0
    ∧ (start env).isRunning = true := by
  cases hres : initializeSystem env.init with
  | error e => simp [start, hres] at h
  | ok u =>
    cases hc : env.createAgentsFails
    · cases hf : env.startAllFacadeFails
      · refine ⟨?_, ?_, ?_⟩ <;> simp [start, hres, hc, hf]
      · simp [start, hres, hc, hf] at h
    · simp [start, hres, hc] at h

/-- Witness for C1 at the default four-agent configuration, all starting
successfully: one health-monitor task, zero recovery-runner tasks. -/
theorem start_spawns_only_health_monitor_witness :
    (start goodStartEnv).spawnedTasks = ["monitor_system_health"]
    ∧ (start goodStartEnv).spawnedTasks.count "run_agent_with_recovery" = 0
    ∧ (start goodStartEnv).isRunning = true :=
  start_spawns_only_health_monitor goodStartEnv rfl

end LaunchBackgroundAgents
